import Mathlib

/-!
Shallow embedding of the St. Gallen Startup Tycoon turn engine
(`startup_tycoon_main.py`, `swiss_events_manager.py`, `app.py`).

Python floats are modelled as rationals (`ℚ`), Python ints as `ℤ`.
Randomness is made explicit: every `random.randint` / `random.uniform` /
`random.random` draw becomes a function argument.  Narration strings are
kept only where a claim refers to them.
-/

/-- Python `int(x)` applied to a float: truncation toward zero
(floor for non-negative arguments, ceiling for negative ones). -/
def pyInt (q : ℚ) : ℤ := if 0 ≤ q then ⌊q⌋ else ⌈q⌉

/-- On non-negative rationals, `pyInt` is the floor. -/
lemma pyInt_eq_floor {q : ℚ} (h : 0 ≤ q) : pyInt q = ⌊q⌋ := if_pos h

/-- `Loan` dataclass from `startup_tycoon_main.py`. -/
structure Loan where
  amount : ℤ
  months_remaining : ℤ
  monthly_payment : ℤ
deriving DecidableEq, Repr

/-- `Company` state from `startup_tycoon_main.py` (`Company.__init__` fields). -/
structure Company where
  owner_name : String
  balance : ℤ
  customers : ℤ
  employees : ℤ
  reputation : ℚ
  product_quality : ℚ
  research_protection : ℤ
  monthly_revenue : ℤ
  monthly_expenses : ℤ
  history : List String
  month : ℤ
  loans : List Loan
  is_bankrupt : Bool
  marketing_boost : ℤ
  no_revenue_this_month : Bool
  months_survived : ℤ
deriving DecidableEq, Repr

/-- `Company.__init__(owner_name)`: the fixed starting state. -/
def Company.init (owner_name : String) : Company :=
  { owner_name := owner_name
    balance := 10000
    customers := 50
    employees := 1
    reputation := 1
    product_quality := 1
    research_protection := 0
    monthly_revenue := 0
    monthly_expenses := 500
    history := []
    month := 1
    loans := []
    is_bankrupt := false
    marketing_boost := 0
    no_revenue_this_month := false
    months_survived := 0 }

/-- `Company.get_total_debt` / the `total_debt` sum in `calculate_score`. -/
def Company.get_total_debt (c : Company) : ℤ :=
  (c.loans.map Loan.amount).sum

/-- `Company.get_monthly_loan_payments`. -/
def Company.get_monthly_loan_payments (c : Company) : ℤ :=
  (c.loans.map Loan.monthly_payment).sum

/-- `Company.calculate_score`: `int(balance + customers*10 + reputation*1000 +
product_quality*1000 - total_debt)`. -/
def Company.calculate_score (c : Company) : ℤ :=
  pyInt ((c.balance : ℚ) + (c.customers : ℚ) * 10 + c.reputation * 1000 +
    c.product_quality * 1000 - (c.get_total_debt : ℚ))

/-- `Company.can_afford`. -/
def Company.can_afford (c : Company) (cost : ℤ) : Bool :=
  c.balance ≥ cost

/-- The per-loan update in `Company.process_loan_payments`: decrement
`months_remaining`, reduce `amount` by `monthly_payment` floored at 0. -/
def Loan.payOne (l : Loan) : Loan :=
  { l with months_remaining := l.months_remaining - 1
           amount := max 0 (l.amount - l.monthly_payment) }

/-- A loan is completed (and removed) when `months_remaining <= 0 or amount <= 0`. -/
def Loan.completed (l : Loan) : Bool :=
  l.months_remaining ≤ 0 || l.amount ≤ 0

/-- `Company.process_loan_payments`.  The Python code collects completed loans
and removes them with `list.remove`; since completion depends only on the loan's
fields and equal loans receive equal updates, this is the same as filtering the
completed loans out (order of the survivors is preserved).  Returns the updated
company and the status narration (empty exactly when there are no loans). -/
def Company.process_loan_payments (c : Company) : Company × String :=
  if c.loans = [] then (c, "")
  else
    let total_payment := c.get_monthly_loan_payments
    let updated := c.loans.map Loan.payOne
    let completed := updated.filter (fun l => l.completed)
    let remaining := updated.filter (fun l => !l.completed)
    let status :=
      "Loan payments: -" ++ toString total_payment ++ " CHF" ++
        (if completed.length > 0 then
          " (" ++ toString completed.length ++ " loan(s) paid off!)" else "")
    ({ c with balance := c.balance - total_payment, loans := remaining }, status)

/-- `Company.take_emergency_loan`: append `Loan(5000, 3, 2000)` and credit 5000. -/
def Company.take_emergency_loan (c : Company) : Company :=
  { c with loans := c.loans ++ [⟨5000, 3, 2000⟩], balance := c.balance + 5000 }

/-- `Company.process_monthly_finances`, with the `random.uniform(0, 3)` draw `u`
explicit.  When `no_revenue_this_month` is false it stays false, so the flag
reset is written unconditionally.  Returns the updated company and the
`(revenue, expenses, net_income)` triple. -/
def Company.process_monthly_finances (c : Company) (u : ℚ) :
    Company × (ℤ × ℤ × ℤ) :=
  let monthly_revenue : ℤ :=
    if c.no_revenue_this_month then 0
    else pyInt ((c.customers : ℚ) * c.product_quality * c.reputation * (5 + u))
  let monthly_expenses : ℤ := max 100 (500 + c.employees * 2000)
  let net_income := monthly_revenue - monthly_expenses
  ({ c with monthly_revenue := monthly_revenue
            no_revenue_this_month := false
            monthly_expenses := monthly_expenses
            balance := c.balance + net_income
            months_survived := c.month },
   (monthly_revenue, monthly_expenses, net_income))

/-- `ActionType` enum from `startup_tycoon_main.py`. -/
inductive ActionTy where
  | marketing
  | development
  | hiring
  | research
  | expansion
  | nothing
  | take_loan
  | go_bankrupt
deriving DecidableEq, Repr

/-- The fixed `cost` of each `GameAction` in `StartupTycoonGame.__init__`. -/
def actionCost : ActionTy → ℤ
  | .marketing => 1500
  | .development => 2000
  | .hiring => 3000
  | .research => 1000
  | .expansion => 4000
  | .nothing => 0
  | .take_loan => 0
  | .go_bankrupt => 0

/-- A `NORMAL` action is one that is neither `TAKE_LOAN` nor `GO_BANKRUPT`. -/
def ActionTy.isNormal (a : ActionTy) : Bool :=
  a ≠ .take_loan && a ≠ .go_bankrupt

/-- The random draws used by `StartupTycoonGame.execute_action`:
`customer_gain` covers the `randint` customer deltas (also `productivity_boost`,
`market_insight`, `inspiration`), `reputation_gain` and `quality_gain` the
`uniform` deltas, and `coin` the `random.random()` call of the NOTHING action. -/
structure ActionDraws where
  customer_gain : ℤ
  reputation_gain : ℚ
  quality_gain : ℚ
  coin : ℚ
deriving DecidableEq, Repr

/-- The effect block of `StartupTycoonGame.execute_action` (the `if/elif`
chain on the action type, applied after the cost has been deducted). -/
def applyActionEffect (a : ActionTy) (d : ActionDraws) (c : Company) : Company :=
  match a with
  | .marketing =>
      if c.marketing_boost > 0 then
        { c with customers := c.customers + d.customer_gain * 2
                 reputation := c.reputation + d.reputation_gain * 2
                 marketing_boost := c.marketing_boost - 1 }
      else
        { c with customers := c.customers + d.customer_gain
                 reputation := c.reputation + d.reputation_gain }
  | .development =>
      { c with product_quality := c.product_quality + d.quality_gain
               customers := c.customers + d.customer_gain }
  | .hiring =>
      { c with employees := c.employees + 1
               customers := c.customers + d.customer_gain
               product_quality := c.product_quality + d.quality_gain }
  | .research =>
      { c with research_protection := c.research_protection + 1
               customers := c.customers + d.customer_gain }
  | .expansion =>
      { c with customers := c.customers + d.customer_gain
               reputation := c.reputation + d.reputation_gain
               product_quality := c.product_quality + d.quality_gain
               employees := c.employees + 1 }
  | .nothing =>
      if d.coin < 3/10 then { c with customers := c.customers + d.customer_gain }
      else c
  | _ => c

/-- `StartupTycoonGame.execute_action`.  The returned `Bool` stands for the
narration: `false` corresponds to the affordability-error message, `true` to
any success narration. -/
def execute_action (c : Company) (a : ActionTy) (d : ActionDraws) :
    Company × Bool :=
  if a = .take_loan then (c.take_emergency_loan, true)
  else if a = .go_bankrupt then ({ c with is_bankrupt := true }, true)
  else if ¬ c.can_afford (actionCost a) then (c, false)
  else (applyActionEffect a d { c with balance := c.balance - actionCost a }, true)

/-! Event handlers from `swiss_events_manager.py` (`SwissEventManager`).
Each `randint`/`uniform`/`random` draw is an explicit argument; the flavor
string choices do not affect state and are omitted. -/

/-- `economic_boom_event`: sets `marketing_boost` to 2, `customer_gain ∈ [15,25]`. -/
def economic_boom_event (c : Company) (customer_gain : ℤ) : Company :=
  { c with marketing_boost := 2, customers := c.customers + customer_gain }

/-- `recession_event`: lose `max(1, int(customers * 0.10))` customers, floored at 0. -/
def recession_event (c : Company) : Company :=
  let customer_loss := max 1 (pyInt ((c.customers : ℚ) * (1/10)))
  { c with customers := max 0 (c.customers - customer_loss) }

/-- `interest_rate_rise_event`: `monthly_expenses += 500`. -/
def interest_rate_rise_event (c : Company) : Company :=
  { c with monthly_expenses := c.monthly_expenses + 500 }

/-- `tax_reduction_event`: `monthly_expenses = max(100, monthly_expenses - 500)`. -/
def tax_reduction_event (c : Company) : Company :=
  { c with monthly_expenses := max 100 (c.monthly_expenses - 500) }

/-- `hsg_career_fair_event`: `customer_gain ∈ [20,40]`, `reputation_gain ∈ [0.2,0.4]`. -/
def hsg_career_fair_event (c : Company) (customer_gain : ℤ)
    (reputation_gain : ℚ) : Company :=
  { c with customers := c.customers + customer_gain
           reputation := c.reputation + reputation_gain }

/-- `hsg_library_crisis_event`: gain `[30,50]` customers if `product_quality > 2.0`,
else lose `[5,15]` customers floored at 0. -/
def hsg_library_crisis_event (c : Company) (customer_gain customer_loss : ℤ) :
    Company :=
  if c.product_quality > 2 then
    { c with customers := c.customers + customer_gain }
  else
    { c with customers := max 0 (c.customers - customer_loss) }

/-- `trischli_disaster_event`: `balance -= employees * randint(200,500)`. -/
def trischli_disaster_event (c : Company) (cost_per_employee : ℤ) : Company :=
  { c with balance := c.balance - c.employees * cost_per_employee }

/-- `trischli_success_event`: `customer_gain ∈ [25,45]`, `reputation += [0.1,0.3]`. -/
def trischli_success_event (c : Company) (customer_gain : ℤ)
    (reputation_gain : ℚ) : Company :=
  { c with customers := c.customers + customer_gain
           reputation := c.reputation + reputation_gain }

/-- `olma_partnership_event`: `balance += [1500,3000]`, `customers += [15,30]`. -/
def olma_partnership_event (c : Company) (revenue_boost customer_gain : ℤ) :
    Company :=
  { c with balance := c.balance + revenue_boost
           customers := c.customers + customer_gain }

/-- `rosenberg_investment_event`: `balance += [5000,8000]` if `reputation > 2.5`. -/
def rosenberg_investment_event (c : Company) (investment : ℤ) : Company :=
  if c.reputation > 5/2 then { c with balance := c.balance + investment } else c

/-- `drei_weihern_party_event`: with `coin < 0.7` gain customers and reputation,
otherwise `balance -= [800,1500]`. -/
def drei_weihern_party_event (c : Company) (coin : ℚ) (customer_gain : ℤ)
    (reputation_gain : ℚ) (damage : ℤ) : Company :=
  if coin < 7/10 then
    { c with customers := c.customers + customer_gain
             reputation := c.reputation + reputation_gain }
  else
    { c with balance := c.balance - damage }

/-- `startup_award_event`: `balance += 3000`, `reputation += 0.5`, `customers += [10,20]`. -/
def startup_award_event (c : Company) (customer_gain : ℤ) : Company :=
  { c with balance := c.balance + 3000
           reputation := c.reputation + 1/2
           customers := c.customers + customer_gain }

/-- `viral_tiktok_event`: `customers += [70,90]`, `reputation += [0.3,0.5]`. -/
def viral_tiktok_event (c : Company) (customer_gain : ℤ)
    (reputation_gain : ℚ) : Company :=
  { c with customers := c.customers + customer_gain
           reputation := c.reputation + reputation_gain }

/-- `good_press_event`: `reputation += 0.3`, `customers += [15,25]`. -/
def good_press_event (c : Company) (customer_gain : ℤ) : Company :=
  { c with reputation := c.reputation + 3/10
           customers := c.customers + customer_gain }

/-- `innovation_grant_event`: `balance += [2000,5000]`. -/
def innovation_grant_event (c : Company) (grant : ℤ) : Company :=
  { c with balance := c.balance + grant }

/-- `tourist_boom_event`: `balance += [2000,4000]`, `customers += [15,35]`. -/
def tourist_boom_event (c : Company) (revenue_boost customer_gain : ℤ) :
    Company :=
  { c with balance := c.balance + revenue_boost
           customers := c.customers + customer_gain }

/-- `server_crash_event`: quality and reputation drop clamped at 0.1,
customers drop floored at 0. -/
def server_crash_event (c : Company) (quality_loss reputation_loss : ℚ)
    (customer_loss : ℤ) : Company :=
  { c with product_quality := max (1/10) (c.product_quality - quality_loss)
           reputation := max (1/10) (c.reputation - reputation_loss)
           customers := max 0 (c.customers - customer_loss) }

/-- `legal_fine_event`: fine `[1800,2200]`, reduced by research protection but
no lower than 500; `reputation -= [0.1,0.2]` with NO clamp. -/
def legal_fine_event (c : Company) (fine : ℤ) (reputation_loss : ℚ) :
    Company :=
  let fine' := if c.research_protection > 0 then
    max 500 (fine - c.research_protection * 300) else fine
  { c with balance := c.balance - fine'
           reputation := c.reputation - reputation_loss }

/-- `employee_quits_event`: no-op when `employees <= 1`; otherwise lose one
employee, quality clamped at 0.1, customers floored at 0. -/
def employee_quits_event (c : Company) (quality_loss : ℚ)
    (customer_loss : ℤ) : Company :=
  if c.employees ≤ 1 then c
  else
    { c with employees := c.employees - 1
             product_quality := max (1/10) (c.product_quality - quality_loss)
             customers := max 0 (c.customers - customer_loss) }

/-- `big_customer_leaves_event`: customers floored at 0, `balance -= [800,1200]`,
`reputation -= [0.1,0.2]` with NO clamp. -/
def big_customer_leaves_event (c : Company) (customer_loss revenue_loss : ℤ)
    (reputation_loss : ℚ) : Company :=
  { c with customers := max 0 (c.customers - customer_loss)
           balance := c.balance - revenue_loss
           reputation := c.reputation - reputation_loss }

/-- `social_media_shitstorm_event`: reputation clamped at 0.1, customers at 0. -/
def social_media_shitstorm_event (c : Company) (reputation_loss : ℚ)
    (customer_loss : ℤ) : Company :=
  { c with reputation := max (1/10) (c.reputation - reputation_loss)
           customers := max 0 (c.customers - customer_loss) }

/-- `fraud_accusations_event`: reputation clamped at 0.1, fine `[1200,1800]`,
customers floored at 0. -/
def fraud_accusations_event (c : Company) (reputation_loss : ℚ)
    (fine customer_loss : ℤ) : Company :=
  { c with reputation := max (1/10) (c.reputation - reputation_loss)
           balance := c.balance - fine
           customers := max 0 (c.customers - customer_loss) }

/-- `ceo_affair_event`: reputation clamped at 0.1, customers floored at 0,
legal costs `[800,1500]`; one employee quits only when `employees > 2`. -/
def ceo_affair_event (c : Company) (reputation_loss : ℚ)
    (customer_loss legal_costs : ℤ) : Company :=
  let c1 := { c with reputation := max (1/10) (c.reputation - reputation_loss)
                     customers := max 0 (c.customers - customer_loss)
                     balance := c.balance - legal_costs }
  if c.employees > 2 then { c1 with employees := c1.employees - 1 } else c1

/-- `bureaucracy_event`: no-op when `research_protection > 0`, else
`balance -= [1000,2500]`. -/
def bureaucracy_event (c : Company) (delay_cost : ℤ) : Company :=
  if c.research_protection > 0 then c
  else { c with balance := c.balance - delay_cost }

/-- `cheese_crisis_event`: `balance -= [500,1200]`. -/
def cheese_crisis_event (c : Company) (cost_increase : ℤ) : Company :=
  { c with balance := c.balance - cost_increase }

/-- `startup_dog_mascot_event`: `customers += [18,22]`, `reputation += [0.25,0.35]`,
`monthly_expenses += [150,250]`. -/
def startup_dog_mascot_event (c : Company) (customer_gain : ℤ)
    (reputation_gain : ℚ) (monthly_costs : ℤ) : Company :=
  { c with customers := c.customers + customer_gain
           reputation := c.reputation + reputation_gain
           monthly_expenses := c.monthly_expenses + monthly_costs }

/-- `intern_deletes_data_event`: customers floored at 0, quality clamped at 0.1,
`balance -= [500,1000]`. -/
def intern_deletes_data_event (c : Company) (customer_loss : ℤ)
    (quality_loss : ℚ) (recovery_costs : ℤ) : Company :=
  { c with customers := max 0 (c.customers - customer_loss)
           product_quality := max (1/10) (c.product_quality - quality_loss)
           balance := c.balance - recovery_costs }

/-- `founder_misses_pitch_event`: sets `no_revenue_this_month`, reputation
clamped at 0.1. -/
def founder_misses_pitch_event (c : Company) (reputation_loss : ℚ) : Company :=
  { c with no_revenue_this_month := true
           reputation := max (1/10) (c.reputation - reputation_loss) }

/-- `comic_sans_code_event`: quality clamped at 0.1, `reputation += [0.15,0.25]`. -/
def comic_sans_code_event (c : Company) (quality_loss reputation_gain : ℚ) :
    Company :=
  { c with product_quality := max (1/10) (c.product_quality - quality_loss)
           reputation := c.reputation + reputation_gain }

/-- `trade_fair_gamble_event`: returns a message or an interactive prompt but
never mutates the company at trigger time. -/
def trade_fair_gamble_event (c : Company) : Company := c

/-- `startup_quiz_event`: returns an interactive prompt, no mutation. -/
def startup_quiz_event (c : Company) : Company := c

/-- `dragons_den_event`: returns a message or an interactive prompt, no mutation. -/
def dragons_den_event (c : Company) : Company := c

/-- One bundle of random draws, enough for any single event handler
(integer draws `n1 n2 n3`, real draws `q1 q2`, and a `random.random()` coin). -/
structure EventDraws where
  n1 : ℤ
  n2 : ℤ
  n3 : ℤ
  q1 : ℚ
  q2 : ℚ
  coin : ℚ
deriving DecidableEq, Repr

/-- The probability column of `SwissEventManager.setup_events`, in table order. -/
def eventProbs : List ℚ :=
  [3/100, 3/100, 4/100, 4/100,
   6/100, 5/100, 7/100, 6/100, 6/100, 4/100, 8/100,
   5/100, 6/100, 8/100, 5/100, 7/100,
   8/100, 7/100, 9/100, 6/100, 5/100, 4/100, 3/100, 10/100, 4/100,
   7/100, 8/100, 6/100, 5/100,
   5/100, 4/100, 3/100]

/-- Dispatch on the position of the handler in `setup_events` table order. -/
def applyEvent (i : ℕ) (c : Company) (d : EventDraws) : Company :=
  match i with
  | 0 => economic_boom_event c d.n1
  | 1 => recession_event c
  | 2 => interest_rate_rise_event c
  | 3 => tax_reduction_event c
  | 4 => hsg_career_fair_event c d.n1 d.q1
  | 5 => hsg_library_crisis_event c d.n1 d.n2
  | 6 => trischli_disaster_event c d.n1
  | 7 => trischli_success_event c d.n1 d.q1
  | 8 => olma_partnership_event c d.n1 d.n2
  | 9 => rosenberg_investment_event c d.n1
  | 10 => drei_weihern_party_event c d.coin d.n1 d.q1 d.n2
  | 11 => startup_award_event c d.n1
  | 12 => viral_tiktok_event c d.n1 d.q1
  | 13 => good_press_event c d.n1
  | 14 => innovation_grant_event c d.n1
  | 15 => tourist_boom_event c d.n1 d.n2
  | 16 => server_crash_event c d.q1 d.q2 d.n1
  | 17 => legal_fine_event c d.n1 d.q1
  | 18 => employee_quits_event c d.q1 d.n1
  | 19 => big_customer_leaves_event c d.n1 d.n2 d.q1
  | 20 => social_media_shitstorm_event c d.q1 d.n1
  | 21 => fraud_accusations_event c d.q1 d.n1 d.n2
  | 22 => ceo_affair_event c d.q1 d.n1 d.n2
  | 23 => bureaucracy_event c d.n1
  | 24 => cheese_crisis_event c d.n1
  | 25 => startup_dog_mascot_event c d.n1 d.q1 d.n2
  | 26 => intern_deletes_data_event c d.n1 d.q1 d.n2
  | 27 => founder_misses_pitch_event c d.q1
  | 28 => comic_sans_code_event c d.q1 d.q2
  | 29 => trade_fair_gamble_event c
  | 30 => startup_quiz_event c
  | 31 => dragons_den_event c
  | _ => c

/-- The cumulative-probability walk of `trigger_random_event`: returns the
position of the first entry whose cumulative probability reaches the roll,
`none` when the walk falls through to the fallback narration. -/
def selectIdx (roll : ℚ) : ℚ → List ℚ → Option ℕ
  | _, [] => none
  | acc, p :: ps =>
      if roll ≤ acc + p then some 0
      else (selectIdx roll (acc + p) ps).map (· + 1)

/-- `SwissEventManager.trigger_random_event` with the roll and the selected
handler's draws explicit; the `none` branch is the fixed neutral narration,
which leaves the company untouched. -/
def trigger_random_event (roll : ℚ) (c : Company) (d : EventDraws) : Company :=
  match selectIdx roll 0 eventProbs with
  | some i => applyEvent i c d
  | none => c

/-! The web layer, `app.py`. -/

/-- The game-over condition of `complete_turn` step 5 (also
`get_company_status` uses the first two disjuncts). -/
def game_over_flag (current_month : ℤ) (c : Company) : Bool :=
  current_month > 12 || c.is_bankrupt || c.balance < -5000

/-- `StartupTycoonGame.check_bankruptcy`. -/
def check_bankruptcy (c : Company) : Bool :=
  c.balance < -5000

/-- `complete_turn` in `app.py`: action, then (unless bankrupt) one random
event, then (unless bankrupt) monthly finances and loan payments, then the
month advances, `months_survived` is stamped, and game-over is evaluated.
Returns (company, new month, game-over flag). -/
def complete_turn (c : Company) (a : ActionTy) (ad : ActionDraws)
    (roll : ℚ) (ed : EventDraws) (u : ℚ) (current_month : ℤ) :
    Company × ℤ × Bool :=
  let c1 := (execute_action c a ad).1
  let c2 := if c1.is_bankrupt then c1 else trigger_random_event roll c1 ed
  let c3 :=
    if c2.is_bankrupt then c2
    else
      let c2' := { c2 with month := current_month }
      ((c2'.process_monthly_finances u).1.process_loan_payments).1
  let new_month := current_month + 1
  let c4 := { c3 with months_survived := new_month - 1 }
  (c4, new_month, game_over_flag new_month c4)

/-- The `quiz_answer` branch of `handle_special_events`. -/
def quiz_answer (c : Company) (correct : Bool) : Company :=
  if correct then { c with balance := c.balance + 2000 } else c

/-- The `dragons_den_decision` branch of `handle_special_events`:
`win` is the `random.random() < 0.5` draw, `reputation_gain ∈ [0.3,0.5]`,
`reputation_loss ∈ [0.4,0.6]`. -/
def dragons_den_decision (c : Company) (participate : Bool) (win : ℚ)
    (reputation_gain reputation_loss : ℚ) : Company :=
  if ¬ participate then c
  else if c.balance < 500 then c
  else
    let c1 := { c with balance := c.balance - 500 }
    if win < 1/2 then
      { c1 with balance := c1.balance + 5000
                reputation := c1.reputation + reputation_gain }
    else
      { c1 with reputation := max (1/10) (c1.reputation - reputation_loss) }

/-- The loan entries of the session dictionary (`company_to_dict`). -/
structure LoanDict where
  amount : ℤ
  months_remaining : ℤ
  monthly_payment : ℤ
deriving DecidableEq, Repr

/-- The session dictionary built by `company_to_dict`: exactly the serialized
keys (`monthly_revenue` and `monthly_expenses` are not stored). -/
structure CompanyDict where
  owner_name : String
  balance : ℤ
  customers : ℤ
  employees : ℤ
  reputation : ℚ
  product_quality : ℚ
  research_protection : ℤ
  month : ℤ
  marketing_boost : ℤ
  no_revenue_this_month : Bool
  months_survived : ℤ
  is_bankrupt : Bool
  loans : List LoanDict
  history : List String
deriving DecidableEq, Repr

/-- `company_to_dict`. -/
def company_to_dict (c : Company) : CompanyDict :=
  { owner_name := c.owner_name
    balance := c.balance
    customers := c.customers
    employees := c.employees
    reputation := c.reputation
    product_quality := c.product_quality
    research_protection := c.research_protection
    month := c.month
    marketing_boost := c.marketing_boost
    no_revenue_this_month := c.no_revenue_this_month
    months_survived := c.months_survived
    is_bankrupt := c.is_bankrupt
    loans := c.loans.map fun l =>
      ⟨l.amount, l.months_remaining, l.monthly_payment⟩
    history := c.history }

/-- `dict_to_company`: start from `Company(owner_name)` and overwrite every
serialized key; loans are rebuilt in order. -/
def dict_to_company (d : CompanyDict) : Company :=
  { Company.init d.owner_name with
    owner_name := d.owner_name
    balance := d.balance
    customers := d.customers
    employees := d.employees
    reputation := d.reputation
    product_quality := d.product_quality
    research_protection := d.research_protection
    month := d.month
    marketing_boost := d.marketing_boost
    no_revenue_this_month := d.no_revenue_this_month
    months_survived := d.months_survived
    is_bankrupt := d.is_bankrupt
    loans := d.loans.map fun l =>
      ⟨l.amount, l.months_remaining, l.monthly_payment⟩
    history := d.history }

/-! Helper lemmas. -/

/-- When the roll is at most the cumulative sum and the table is non-empty,
the cumulative walk selects some entry. -/
lemma selectIdx_isSome_of_le_sum (probs : List ℚ) :
    ∀ (acc roll : ℚ), probs ≠ [] → roll ≤ acc + probs.sum →
      (selectIdx roll acc probs).isSome := by
  induction probs with
  | nil => intro acc roll h _; exact absurd rfl h
  | cons p ps ih =>
      intro acc roll _ hle
      rw [selectIdx]
      by_cases hc : roll ≤ acc + p
      · rw [if_pos hc]; rfl
      · rw [if_neg hc]
        rw [Option.isSome_map']
        match ps with
        | [] =>
            exfalso; apply hc
            simpa using hle
        | q :: qs =>
            apply ih (acc + p) roll (by simp)
            rw [List.sum_cons] at hle
            linarith

/-- When the roll strictly exceeds the cumulative sum of a table of
non-negative probabilities, the walk falls through. -/
lemma selectIdx_eq_none_of_gt (probs : List ℚ) :
    ∀ (acc roll : ℚ), (∀ p ∈ probs, 0 ≤ p) → acc + probs.sum < roll →
      selectIdx roll acc probs = none := by
  induction probs with
  | nil => intro acc roll _ _; rfl
  | cons p ps ih =>
      intro acc roll hpos hlt
      rw [List.sum_cons] at hlt
      have hps : (0:ℚ) ≤ ps.sum :=
        List.sum_nonneg (fun q hq => hpos q (List.mem_cons_of_mem p hq))
      rw [selectIdx, if_neg (by push_neg; linarith)]
      rw [ih (acc + p) roll (fun q hq => hpos q (List.mem_cons_of_mem p hq))
        (by linarith)]
      rfl

/-- Round trip of the loan list through the session dictionary. -/
lemma loanDict_roundtrip (ls : List Loan) :
    (ls.map fun l =>
        ((⟨l.amount, l.months_remaining, l.monthly_payment⟩ : LoanDict))).map
      (fun l => (⟨l.amount, l.months_remaining, l.monthly_payment⟩ : Loan)) = ls := by
  induction ls with
  | nil => rfl
  | cons l ls ih => simp [ih]

/-- `execute_action` never clears `is_bankrupt`. -/
lemma execute_action_preserves_bankrupt (c : Company) (a : ActionTy)
    (d : ActionDraws) (h : c.is_bankrupt = true) :
    ((execute_action c a d).1).is_bankrupt = true := by
  rw [execute_action]
  split
  · simpa [Company.take_emergency_loan] using h
  · split
    · rfl
    · split
      · simpa using h
      · cases a <;>
          simp_all [applyActionEffect] <;> split_ifs <;> simp_all

/-! Claim theorems. -/

/-- C1: the claim says every event that reduces `reputation` clamps it at the
floor 0.1; `legal_fine_event` (like `big_customer_leaves_event`) subtracts
from `reputation` without any clamp, so a company entering with
reputation 0.2 and in-range draws (fine 2000, reputation loss 0.15) leaves
with reputation 0.05 < 0.1. -/
theorem c1_legal_fine_reputation_floor_violation :
    (legal_fine_event { Company.init "P" with reputation := 1/5 } 2000
        (3/20)).reputation = 1/20 ∧
      ¬ ((1/10 : ℚ) ≤ 1/20) := by
  constructor
  · simp [legal_fine_event, Company.init]
    norm_num
  · norm_num

/-- C2 (counterexample): on the claim's own concrete company — the fresh
company, which has balance 10000, 50 customers, reputation 1.0, product
quality 1.0 and no loans — `calculate_score` returns 12500, not 12000. -/
theorem c2_score_initial_company_not_12000 :
    (Company.init "P").calculate_score = 12500 ∧ (12500 : ℤ) ≠ 12000 := by
  constructor
  · simp [Company.calculate_score, Company.init, Company.get_total_debt, pyInt]
    norm_num
  · decide

/-- C2 (amended): `calculate_score` returns balance + customers×10 +
reputation×1000 + productQuality×1000 minus the total outstanding loan
principal, truncated to an integer; on the claim's concrete company the
result is 12500. -/
theorem c2_calculate_score_formula :
    (∀ c : Company, c.calculate_score =
      pyInt ((c.balance : ℚ) + (c.customers : ℚ) * 10 + c.reputation * 1000 +
        c.product_quality * 1000 - (((c.loans.map Loan.amount).sum : ℤ) : ℚ))) ∧
    (Company.init "P").calculate_score = 12500 := by
  constructor
  · intro c; rfl
  · simp [Company.calculate_score, Company.init, Company.get_total_debt, pyInt]
    norm_num

/-- C5: the game-over condition holds exactly when `month > 12` or
`isBankrupt` or `balance < -5000`; at the boundary, balance exactly -5000 is
not game-over and -5001 is. -/
theorem c5_game_over_condition :
    (∀ (m : ℤ) (c : Company),
      game_over_flag m c = true ↔
        (12 < m ∨ c.is_bankrupt = true ∨ c.balance < -5000)) ∧
    game_over_flag 5 { Company.init "P" with balance := -5000 } = false ∧
    game_over_flag 5 { Company.init "P" with balance := -5001 } = true := by
  refine ⟨?_, ?_, ?_⟩
  · intro m c
    simp [game_over_flag, or_assoc]
  · simp [game_over_flag, Company.init]
  · simp [game_over_flag, Company.init]

/-- C10: the snapshot round trip `dict_to_company (company_to_dict c)`
restores every serialized field (including the ordered loans list and the
history), while `monthly_revenue` and `monthly_expenses` come back as the
constructor defaults 0 and 500. -/
theorem c10_snapshot_round_trip (c : Company) :
    (dict_to_company (company_to_dict c)).owner_name = c.owner_name ∧
    (dict_to_company (company_to_dict c)).balance = c.balance ∧
    (dict_to_company (company_to_dict c)).customers = c.customers ∧
    (dict_to_company (company_to_dict c)).employees = c.employees ∧
    (dict_to_company (company_to_dict c)).reputation = c.reputation ∧
    (dict_to_company (company_to_dict c)).product_quality = c.product_quality ∧
    (dict_to_company (company_to_dict c)).research_protection
      = c.research_protection ∧
    (dict_to_company (company_to_dict c)).month = c.month ∧
    (dict_to_company (company_to_dict c)).marketing_boost = c.marketing_boost ∧
    (dict_to_company (company_to_dict c)).no_revenue_this_month
      = c.no_revenue_this_month ∧
    (dict_to_company (company_to_dict c)).months_survived = c.months_survived ∧
    (dict_to_company (company_to_dict c)).is_bankrupt = c.is_bankrupt ∧
    (dict_to_company (company_to_dict c)).loans = c.loans ∧
    (dict_to_company (company_to_dict c)).history = c.history ∧
    (dict_to_company (company_to_dict c)).monthly_revenue = 0 ∧
    (dict_to_company (company_to_dict c)).monthly_expenses = 500 := by
  refine ⟨rfl, rfl, rfl, rfl, rfl, rfl, rfl, rfl, rfl, rfl, rfl, rfl, ?_,
    rfl, rfl, rfl⟩
  exact loanDict_roundtrip c.loans

/-- Every probability in the event table is non-negative. -/
lemma eventProbs_nonneg : ∀ p ∈ eventProbs, (0 : ℚ) ≤ p := by
  intro p hp
  fin_cases hp <;> norm_num

/-- The probabilities of the event table sum to 1.81. -/
lemma eventProbs_sum_eq : eventProbs.sum = 181/100 := by
  norm_num [eventProbs]

/-- C3 (counterexample): the event probabilities sum to 1.81, which is not
less than 1, and a draw of exactly 1.0 does not fall through to the neutral
no-mutation outcome: it selects table entry 17 (Legal Fine), whose handler
mutates the company (balance drops from 10000 to 8000 at in-range draws). -/
theorem c3_probability_sum_and_draw_one :
    ¬ (eventProbs.sum < 1) ∧
    selectIdx 1 0 eventProbs = some 17 ∧
    (trigger_random_event 1 (Company.init "P")
        ⟨2000, 0, 0, 3/20, 0, 0⟩).balance = 8000 ∧
    (Company.init "P").balance = 10000 := by
  refine ⟨by rw [eventProbs_sum_eq]; norm_num, ?_, ?_, rfl⟩
  · norm_num [selectIdx, eventProbs]
  · norm_num [trigger_random_event, selectIdx, eventProbs, applyEvent,
      legal_fine_event, Company.init]

/-- C3 (amended): the table's probabilities are positive and sum to 1.81
(strictly greater than 1); `trigger_random_event` selects by
cumulative-probability walk: a draw of exactly 0.0 selects the first table
entry, any draw at most the cumulative sum 1.81 selects some entry, a draw
exceeding 1.81 (which `random.random()` never produces) yields the fixed
neutral no-mutation outcome, and a draw of exactly 1.0 selects entry 17
(Legal Fine) rather than the neutral outcome. -/
theorem c3_event_selection_amended :
    eventProbs.sum = 181/100 ∧
    (∀ p ∈ eventProbs, (0 : ℚ) < p) ∧
    selectIdx 0 0 eventProbs = some 0 ∧
    (∀ roll : ℚ, 181/100 < roll → ∀ (c : Company) (d : EventDraws),
        trigger_random_event roll c d = c) ∧
    (∀ roll : ℚ, roll ≤ 181/100 → (selectIdx roll 0 eventProbs).isSome) ∧
    selectIdx 1 0 eventProbs = some 17 := by
  refine ⟨eventProbs_sum_eq, ?_, ?_, ?_, ?_, ?_⟩
  · intro p hp; fin_cases hp <;> norm_num
  · norm_num [selectIdx, eventProbs]
  · intro roll h c d
    rw [trigger_random_event,
      selectIdx_eq_none_of_gt eventProbs 0 roll eventProbs_nonneg
        (by rw [zero_add, eventProbs_sum_eq]; linarith)]
  · intro roll h
    exact selectIdx_isSome_of_le_sum eventProbs 0 roll (by simp [eventProbs])
      (by rw [zero_add, eventProbs_sum_eq]; exact h)
  · norm_num [selectIdx, eventProbs]

/-- C3 witness: a draw of 2.0 (beyond the cumulative sum) leaves a concrete
company untouched, via the amended theorem. -/
theorem c3_event_selection_amended_witness :
    trigger_random_event 2 (Company.init "W") ⟨0, 0, 0, 0, 0, 0⟩
      = Company.init "W" :=
  c3_event_selection_amended.2.2.2.1 2 (by norm_num) (Company.init "W")
    ⟨0, 0, 0, 0, 0, 0⟩

/-- C4 (counterexample): a company that is already bankrupt and still owns
10000 CHF has its balance changed to 15000 by a complete turn choosing
`take_loan` — the action phase of `complete_turn` is not short-circuited. -/
theorem c4_bankrupt_take_loan_changes_balance :
    ({ Company.init "P" with is_bankrupt := true } : Company).balance
        = 10000 ∧
    (complete_turn { Company.init "P" with is_bankrupt := true }
        .take_loan ⟨0, 0, 0, 0⟩ 0 ⟨0, 0, 0, 0, 0, 0⟩ 0 3).1.balance = 15000 := by
  constructor
  · rfl
  · simp [complete_turn, execute_action, Company.take_emergency_loan,
      Company.init]

/-- C4 (amended): once `isBankrupt` is true, `complete_turn` short-circuits
event triggering and finance settlement — the result is exactly the
post-action company with only `months_survived` restamped — but the action
phase still executes, so only the `go_bankrupt` action is guaranteed to
leave customers, reputation, productQuality and balance unchanged
(`take_loan` and affordable normal actions still mutate the company). -/
theorem c4_bankrupt_short_circuit_amended (c : Company) (a : ActionTy)
    (ad : ActionDraws) (roll : ℚ) (ed : EventDraws) (u : ℚ) (m : ℤ)
    (h : c.is_bankrupt = true) :
    (complete_turn c a ad roll ed u m).1 =
      { (execute_action c a ad).1 with months_survived := m } ∧
    (a = .go_bankrupt →
      (complete_turn c a ad roll ed u m).1.customers = c.customers ∧
      (complete_turn c a ad roll ed u m).1.reputation = c.reputation ∧
      (complete_turn c a ad roll ed u m).1.product_quality
          = c.product_quality ∧
      (complete_turn c a ad roll ed u m).1.balance = c.balance) := by
  have hb := execute_action_preserves_bankrupt c a ad h
  constructor
  · simp [complete_turn, hb]
  · rintro rfl
    simp [complete_turn, hb, execute_action]

/-- C4 witness: the amended short-circuit behaviour at a concrete bankrupt
company and the `go_bankrupt` action. -/
theorem c4_bankrupt_short_circuit_amended_witness :
    (complete_turn { Company.init "W" with is_bankrupt := true }
        .go_bankrupt ⟨0, 0, 0, 0⟩ 0 ⟨0, 0, 0, 0, 0, 0⟩ 0 5).1.balance
      = ({ Company.init "W" with is_bankrupt := true } : Company).balance :=
  (c4_bankrupt_short_circuit_amended
    { Company.init "W" with is_bankrupt := true } .go_bankrupt
    ⟨0, 0, 0, 0⟩ 0 ⟨0, 0, 0, 0, 0, 0⟩ 0 5 rfl).2 rfl |>.2.2.2

/-- On negative rationals, `pyInt` is minus the floor of the negation. -/
lemma pyInt_of_neg {q : ℚ} (h : q < 0) : pyInt q = -⌊-q⌋ := by
  rw [pyInt, if_neg (not_le.mpr h)]
  have hf := Int.floor_neg (α := ℚ) (a := q)
  omega

/-- C6: `process_loan_payments` returns empty narration and changes nothing
on an empty loans list; otherwise it deducts the sum of all monthly payments
once, updates every loan (months −1, amount reduced floored at 0), removes
exactly the loans with `months_remaining <= 0 or amount <= 0`, and returns a
non-empty narration.  For the single loan {5000, 3, 2000}, three consecutive
calls leave {3000,2,2000}, then {1000,1,2000}, then remove the loan, with a
total balance deduction of exactly 6000. -/
theorem c6_process_loan_payments :
    (∀ c : Company, c.loans = [] → c.process_loan_payments = (c, "")) ∧
    (∀ c : Company, c.loans ≠ [] →
      (c.process_loan_payments).1.balance
          = c.balance - (c.loans.map Loan.monthly_payment).sum ∧
      (c.process_loan_payments).1.loans
          = (c.loans.map Loan.payOne).filter (fun l => !l.completed) ∧
      (c.process_loan_payments).2 ≠ "") ∧
    ((({ Company.init "P" with loans := [⟨5000, 3, 2000⟩] }
        : Company).process_loan_payments).1.loans = [⟨3000, 2, 2000⟩]) ∧
    (((({ Company.init "P" with loans := [⟨5000, 3, 2000⟩] }
        : Company).process_loan_payments).1.process_loan_payments).1.loans
        = [⟨1000, 1, 2000⟩]) ∧
    ((((({ Company.init "P" with loans := [⟨5000, 3, 2000⟩] }
        : Company).process_loan_payments).1.process_loan_payments).1.process_loan_payments).1.loans
        = []) ∧
    ((((({ Company.init "P" with loans := [⟨5000, 3, 2000⟩] }
        : Company).process_loan_payments).1.process_loan_payments).1.process_loan_payments).1.balance
        = 10000 - 6000) := by
  refine ⟨?_, ?_, ?_, ?_, ?_, ?_⟩
  · intro c h
    simp [Company.process_loan_payments, h]
  · intro c h
    refine ⟨?_, ?_, ?_⟩
    · simp [Company.process_loan_payments, h, Company.get_monthly_loan_payments]
    · simp [Company.process_loan_payments, h]
    · rw [Company.process_loan_payments, if_neg h]
      intro heq
      have h2 := congrArg String.length heq
      simp [String.length_append] at h2
      exact absurd h2.1.1.1 (by decide)
  · simp [Company.process_loan_payments, Company.init, Loan.payOne,
      Loan.completed, Company.get_monthly_loan_payments]
  · simp [Company.process_loan_payments, Company.init, Loan.payOne,
      Loan.completed, Company.get_monthly_loan_payments]
  · simp [Company.process_loan_payments, Company.init, Loan.payOne,
      Loan.completed, Company.get_monthly_loan_payments]
  · simp [Company.process_loan_payments, Company.init, Loan.payOne,
      Loan.completed, Company.get_monthly_loan_payments]

/-- C6 witness: the empty-loans case at a concrete company. -/
theorem c6_process_loan_payments_witness :
    (Company.init "W").process_loan_payments = (Company.init "W", "") :=
  c6_process_loan_payments.1 (Company.init "W") rfl

/-- C7 (counterexample): revenue is computed with Python `int()`, which
truncates toward zero, not `floor`: at customers 1, productQuality 1.0,
reputation −0.5 (reachable because the reputation floor is not enforced by
all events) and a base-revenue draw of 0, the product is −2.5; the code
stores −2 while the claimed floor is −3. -/
theorem c7_revenue_truncates_not_floors :
    ((({ Company.init "P" with customers := 1, reputation := -(1/2) }
        : Company).process_monthly_finances 0).1.monthly_revenue = -2) ∧
    ⌊(((1 : ℤ) : ℚ)) * (1 : ℚ) * (-(1/2)) * ((5 : ℚ) + 0)⌋ = -3 ∧
    ((-2 : ℤ) ≠ -3) := by
  refine ⟨?_, by norm_num, by decide⟩
  simp only [Company.process_monthly_finances, Company.init]
  norm_num
  rw [pyInt_of_neg (by norm_num)]
  norm_num

/-- C7 (amended): `processMonthlyFinances` computes revenue 0 and resets the
flag when `noRevenueThisMonth` is set, otherwise revenue is
customers × productQuality × reputation × (5 + u) truncated toward zero
(which is the claimed floor whenever that product is non-negative);
expenses are recomputed as `max(100, 500 + employees*2000)` regardless of
the stored value; balance increases by revenue − expenses; and
`monthsSurvived` is set to the current month. -/
theorem c7_monthly_finances_amended (c : Company) (u : ℚ) :
    (c.no_revenue_this_month = true →
      (c.process_monthly_finances u).1.monthly_revenue = 0) ∧
    (c.no_revenue_this_month = false →
      (c.process_monthly_finances u).1.monthly_revenue =
        pyInt ((c.customers : ℚ) * c.product_quality * c.reputation
          * (5 + u))) ∧
    (c.no_revenue_this_month = false →
      0 ≤ (c.customers : ℚ) * c.product_quality * c.reputation * (5 + u) →
      (c.process_monthly_finances u).1.monthly_revenue =
        ⌊(c.customers : ℚ) * c.product_quality * c.reputation * (5 + u)⌋) ∧
    (c.process_monthly_finances u).1.no_revenue_this_month = false ∧
    (c.process_monthly_finances u).1.monthly_expenses
        = max 100 (500 + c.employees * 2000) ∧
    (c.process_monthly_finances u).1.balance
        = c.balance + (c.process_monthly_finances u).1.monthly_revenue
            - (c.process_monthly_finances u).1.monthly_expenses ∧
    (c.process_monthly_finances u).1.months_survived = c.month := by
  refine ⟨?_, ?_, ?_, ?_, ?_, ?_, ?_⟩
  · intro h; simp [Company.process_monthly_finances, h]
  · intro h; simp [Company.process_monthly_finances, h]
  · intro h hnn
    simp [Company.process_monthly_finances, h, pyInt_eq_floor hnn]
  · simp [Company.process_monthly_finances]
  · simp [Company.process_monthly_finances]
  · simp [Company.process_monthly_finances]
    ring
  · simp [Company.process_monthly_finances]

/-- C7 witness: the no-revenue branch at a concrete company. -/
theorem c7_monthly_finances_amended_witness :
    (({ Company.init "W" with no_revenue_this_month := true }
        : Company).process_monthly_finances 0).1.monthly_revenue = 0 :=
  (c7_monthly_finances_amended
    { Company.init "W" with no_revenue_this_month := true } 0).1 rfl

/-- C8: for every NORMAL action, if `balance < cost` the action reports an
affordability failure and leaves the company completely unchanged; if
`balance >= cost` exactly the cost is deducted and only then is the
action's effect applied (over the already-deducted state), so no error path
leaves the company partially mutated; the effects of normal actions never
touch the balance. -/
theorem c8_normal_action_atomicity (c : Company) (a : ActionTy)
    (d : ActionDraws) (h : a.isNormal = true) :
    (c.balance < actionCost a → execute_action c a d = (c, false)) ∧
    (actionCost a ≤ c.balance →
      (execute_action c a d).1 =
        applyActionEffect a d { c with balance := c.balance - actionCost a } ∧
      (execute_action c a d).1.balance = c.balance - actionCost a ∧
      (execute_action c a d).2 = true) := by
  rw [ActionTy.isNormal, Bool.and_eq_true, decide_eq_true_eq,
    decide_eq_true_eq] at h
  constructor
  · intro hlt
    rw [execute_action, if_neg h.1, if_neg h.2,
      if_pos (by simp [Company.can_afford]; omega)]
  · intro hge
    have hexec : execute_action c a d =
        (applyActionEffect a d { c with balance := c.balance - actionCost a },
          true) := by
      rw [execute_action, if_neg h.1, if_neg h.2,
        if_neg (by simp [Company.can_afford]; omega)]
    refine ⟨by rw [hexec], ?_, by rw [hexec]⟩
    rw [hexec]
    cases a <;> simp [applyActionEffect] <;> split_ifs <;> simp

/-- C8 witness: the affordability-failure path at a concrete company. -/
theorem c8_normal_action_atomicity_witness :
    execute_action { Company.init "W" with balance := 100 } .marketing
        ⟨0, 0, 0, 0⟩
      = ({ Company.init "W" with balance := 100 }, false) :=
  (c8_normal_action_atomicity { Company.init "W" with balance := 100 }
    .marketing ⟨0, 0, 0, 0⟩ rfl).1 (by decide)

/-- C9: every event handler and every action preserves `employees >= 1`:
the employee-quit handler declines when `employees <= 1`, the CEO-affair
handler removes an employee exactly when `employees > 2`, and no other
operation (actions, finance settlement, loan payments, the interactive-event
resolutions) decreases employees. -/
theorem c9_employees_invariant :
    (∀ (c : Company) (d : EventDraws) (i : ℕ), 1 ≤ c.employees →
        1 ≤ (applyEvent i c d).employees) ∧
    (∀ (c : Company) (a : ActionTy) (d : ActionDraws), 1 ≤ c.employees →
        1 ≤ ((execute_action c a d).1).employees) ∧
    (∀ (c : Company) (ql : ℚ) (cl : ℤ), c.employees ≤ 1 →
        employee_quits_event c ql cl = c) ∧
    (∀ (c : Company) (rl : ℚ) (cl lc : ℤ), c.employees ≤ 2 →
        (ceo_affair_event c rl cl lc).employees = c.employees) ∧
    (∀ (c : Company) (rl : ℚ) (cl lc : ℤ), 2 < c.employees →
        (ceo_affair_event c rl cl lc).employees = c.employees - 1) ∧
    (∀ (c : Company) (u : ℚ), 1 ≤ c.employees →
        1 ≤ ((c.process_monthly_finances u).1).employees) ∧
    (∀ c : Company, 1 ≤ c.employees →
        1 ≤ ((c.process_loan_payments).1).employees) ∧
    (∀ (c : Company) (b : Bool), 1 ≤ c.employees →
        1 ≤ (quiz_answer c b).employees) ∧
    (∀ (c : Company) (p : Bool) (w rg rl : ℚ), 1 ≤ c.employees →
        1 ≤ (dragons_den_decision c p w rg rl).employees) := by
  refine ⟨?_, ?_, ?_, ?_, ?_, ?_, ?_, ?_, ?_⟩
  · intro c d i h
    unfold applyEvent
    split <;>
      simp_all [economic_boom_event, recession_event,
        interest_rate_rise_event, tax_reduction_event, hsg_career_fair_event,
        hsg_library_crisis_event, trischli_disaster_event,
        trischli_success_event, olma_partnership_event,
        rosenberg_investment_event, drei_weihern_party_event,
        startup_award_event, viral_tiktok_event, good_press_event,
        innovation_grant_event, tourist_boom_event, server_crash_event,
        legal_fine_event, employee_quits_event, big_customer_leaves_event,
        social_media_shitstorm_event, fraud_accusations_event,
        ceo_affair_event, bureaucracy_event, cheese_crisis_event,
        startup_dog_mascot_event, intern_deletes_data_event,
        founder_misses_pitch_event, comic_sans_code_event,
        trade_fair_gamble_event, startup_quiz_event, dragons_den_event] <;>
      split_ifs <;> simp_all <;> omega
  · intro c a d h
    rw [execute_action]
    split_ifs with h1 h2 h3
    · simpa [Company.take_emergency_loan] using h
    · simpa using h
    · cases a <;> simp only [applyActionEffect] <;> (try split_ifs) <;>
        simp_all <;> omega
    · simpa using h
  · intro c ql cl h
    rw [employee_quits_event, if_pos h]
  · intro c rl cl lc h
    rw [ceo_affair_event]
    simp [not_lt.mpr h]
  · intro c rl cl lc h
    rw [ceo_affair_event]
    simp [h]
  · intro c u h
    simpa [Company.process_monthly_finances] using h
  · intro c h
    rw [Company.process_loan_payments]
    split_ifs <;> simpa using h
  · intro c b h
    rw [quiz_answer]
    split_ifs <;> simpa using h
  · intro c p w rg rl h
    rw [dragons_den_decision]
    split_ifs <;> simpa using h

/-- C9 witness: the invariant at a concrete company and the first event. -/
theorem c9_employees_invariant_witness :
    1 ≤ (applyEvent 0 (Company.init "W") ⟨0, 0, 0, 0, 0, 0⟩).employees :=
  c9_employees_invariant.1 (Company.init "W") ⟨0, 0, 0, 0, 0, 0⟩ 0 (le_refl 1)
